import Mathlib

/-!
Shallow embedding of `vantage6/common/context.py` (the `AppContext` class of the
vantage6-common repository) and proofs about it.

Paths are modelled as lists of components, the filesystem and the external
`ConfigurationManager.from_file` collaborator as explicit parameters (a `World`),
the OS application-directory convention (the `appdirs` library) as an `AppDirs`
record of root paths, and the process-wide root logger of the `logging` module as
an explicit `RootLogger` state threaded through the operations.  Fallible Python
code (assertions, attribute errors, key errors, propagated exceptions) is
modelled with `Except Err`.
-/

/-- A filesystem path, as its list of components (Python `pathlib.Path`). -/
abbrev FsPath := List String

/-- Python `p / s` on `pathlib` paths: append one component. -/
def FsPath.child (p : FsPath) (s : String) : FsPath := p ++ [s]

/-- Render a path roughly the way Python prints it inside messages. -/
def FsPath.render (p : FsPath) : String := String.intercalate "/" p

/-- Split a character list on dots (the pieces of Python `s.split(".")`). -/
def splitDot (cs : List Char) : List (List Char) :=
  cs.foldr
    (fun c acc =>
      if c = '.' then [] :: acc
      else
        match acc with
        | [] => [[c]]
        | a :: rest => (c :: a) :: rest)
    [[]]

/-- Python `str.upper()`, character-wise (enough for ASCII level names). -/
def pyUpper (s : String) : String := String.mk (s.data.map Char.toUpper)

/-- Python `Path(s).stem` for a single component: the name without its final
suffix (`"node.yaml"` becomes `"node"`; a name with no dot is unchanged). -/
def fileStem (s : String) : String :=
  match splitDot s.data with
  | [] => s
  | [_] => s
  | parts =>
    let stem := String.intercalate "." (parts.dropLast.map (fun cs => String.mk cs))
    if stem = "" then s else stem

/-- Python `Path(p).stem` on a full path: the stem of the last component. -/
def FsPath.stem (p : FsPath) : String := fileStem (p.getLast?.getD "")

/-- Python `Path(p).parent`: the path without its last component. -/
def FsPath.parent (p : FsPath) : FsPath := p.dropLast

/-- Modelled from the spec: the application-name constant `APPNAME` from
`vantage6.common.globals`, which is not under `src/`.  Its exact value is
irrelevant to every claim. -/
def APPNAME : String := "vantage6"

/-- Modelled from the spec: the `DEFAULT_ENVIRONMENT` constant from
`vantage6.common.globals`, which is not under `src/`.  Its exact value is
irrelevant to every claim. -/
def DEFAULT_ENVIRONMENT : String := "application"

/-- The `logging` sub-mapping of one environment's settings (spec 4.4): required
keys `level`, `format`, `max_size` (KiB), `backup_count`, `use_console`, and
optional keys `datefmt` and `file`. -/
structure LoggingConfig where
  level : String
  format : String
  datefmt : Option String
  max_size : Nat
  backup_count : Nat
  use_console : Bool
  file : Option String
deriving DecidableEq

/-- One environment's settings mapping: an optional `logging` section plus the
remaining (uninterpreted) key/value entries. -/
structure Config where
  logging : Option LoggingConfig
  other : List (String × String)
deriving DecidableEq

/-- Modelled from the spec: the external `ConfigurationManager` collaborator
(`vantage6.common.configuration_manager`, not under `src/`).  It owns the parsed
multi-environment document (an association list of environment name to settings),
carries a `name`, and exposes `available_environments`, `get` and `is_empty`. -/
structure ConfigurationManager where
  name : String
  environments : List (String × Config)
deriving DecidableEq

/-- Modelled from the spec: `available_environments`, the set of environment
names of the parsed document. -/
def ConfigurationManager.available_environments (cm : ConfigurationManager) :
    List String :=
  cm.environments.map Prod.fst

/-- Modelled from the spec: `get(name)`, the settings mapping for the named
environment (absent names yield nothing). -/
def ConfigurationManager.get (cm : ConfigurationManager) (env : String) :
    Option Config :=
  cm.environments.lookup env

/-- Modelled from the spec: `is_empty`, true when the document has no
environments. -/
def ConfigurationManager.is_empty (cm : ConfigurationManager) : Bool :=
  cm.environments.isEmpty

/-- How a Python-level failure surfaces: a failed `assert` (with its message),
an `AttributeError` on an unset attribute, a `KeyError`, or an exception
propagated out of the `ConfigurationManager.from_file` collaborator. -/
inductive Err where
  | assertion (msg : String)
  | attribute (attr : String)
  | keyError (key : String)
  | raised (msg : String)
deriving DecidableEq

/-- The external world: which paths exist on disk, what
`ConfigurationManager.from_file` returns for each path (or which exception it
raises — modelled from the spec, since the manager's code is not under `src/`),
and which `*.yaml` files a directory glob yields. -/
structure World where
  fileExists : FsPath → Bool
  from_file : FsPath → Except String ConfigurationManager
  globYaml : FsPath → List FsPath

/-- The OS application-directory convention (`appdirs.AppDirs(APPNAME, "")`):
the root path of each category used by the source. -/
structure AppDirs where
  user_log_dir : FsPath
  user_data_dir : FsPath
  user_config_dir : FsPath
  site_data_dir : FsPath
  site_config_dir : FsPath
deriving DecidableEq

/-- The dictionary returned by `AppContext.instance_folders`. -/
structure InstanceFolders where
  log : FsPath
  data : FsPath
  config : FsPath
deriving DecidableEq

/-- A handler attached to the root logger: the `RotatingFileHandler` built in
`setup_logging`, or the `ColorStreamHandler` console handler. -/
inductive Handler where
  | rotatingFile (file : FsPath) (level : Nat) (fmt : String) (datefmt : String)
      (maxBytes : Nat) (backupCount : Nat)
  | colorStream (level : Nat) (fmt : String) (datefmt : String)
deriving DecidableEq

/-- The process-wide root logger state mutated by `setup_logging`: its level,
its list of attached handlers, and the `captureWarnings` flag. -/
structure RootLogger where
  level : Nat := 30
  handlers : List Handler := []
  captureWarnings : Bool := false
deriving DecidableEq

/-- Python `getattr(logging, name)` for level names: the numeric levels the
`logging` module defines; any other name is an `AttributeError`. -/
def logLevelValue : String → Option Nat
  | "CRITICAL" => some 50
  | "FATAL" => some 50
  | "ERROR" => some 40
  | "WARNING" => some 30
  | "WARN" => some 30
  | "INFO" => some 20
  | "DEBUG" => some 10
  | "NOTSET" => some 0
  | _ => none

/-- The attribute state of an `AppContext` object.  Attributes a code path may
leave unassigned (`name`, `scope`, `config_file`, `config_manager`,
`environment`, `config`, `log`) are `Option`-valued, `none` meaning unset (so
reading raises `AttributeError`). -/
structure AppContext where
  name : Option String := none
  scope : Option String := none
  log_dir : FsPath := []
  data_dir : FsPath := []
  config_dir : FsPath := []
  config_file : Option FsPath := none
  config_manager : Option ConfigurationManager := none
  environment : Option String := none
  config : Option Config := none
  log : Option String := none
deriving DecidableEq

/-- `AppContext.instance_folders(instance_type, instance_name, system_folders)`:
the log/data/config directories under the OS convention `d`. -/
def AppContext.instance_folders (d : AppDirs) (instance_type instance_name : String)
    (system_folders : Bool) : InstanceFolders :=
  if system_folders then
    { log := d.site_data_dir ++ [instance_type]
      data := d.site_data_dir ++ [instance_type, instance_name]
      config := d.site_config_dir ++ [instance_type] }
  else
    { log := d.user_log_dir ++ [instance_type]
      data := d.user_data_dir ++ [instance_type, instance_name]
      config := d.user_config_dir ++ [instance_type] }

/-- `AppContext.set_folders`: store the three resolved directories. -/
def AppContext.set_folders (d : AppDirs) (ctx : AppContext)
    (instance_type instance_name : String) (system_folders : Bool) : AppContext :=
  let dirs := AppContext.instance_folders d instance_type instance_name system_folders
  { ctx with log_dir := dirs.log, data_dir := dirs.data, config_dir := dirs.config }

/-- `self.config.get("logging")` followed by `.get("file")`, with Python
truthiness: an absent logging section, an absent `file` key, or an empty-string
filename all fall through to the default log-file name. -/
def Config.loggingFileOverride (cfg : Config) : Option String :=
  match cfg.logging with
  | none => none
  | some lc =>
    match lc.file with
    | none => none
    | some f => if f = "" then none else some f

/-- The `AppContext.log_file` property, translated from the source: asserts the
config manager is loaded; returns `log_dir / file` when the logging section has
a (truthy) `file` key; otherwise builds the default name with the source's
literal `" + .log"` suffix from `config_manager.name`, `self.environment` and
`self.scope` (in that evaluation order). -/
def AppContext.log_file (ctx : AppContext) : Except Err FsPath :=
  match ctx.config_manager with
  | none => .error (.assertion "Log file unkown as configuration manager not initialized")
  | some cm =>
    match ctx.config with
    | none => .error (.attribute "config")
    | some cfg =>
      match cfg.loggingFileOverride with
      | some f => .ok (ctx.log_dir.child f)
      | none =>
        match ctx.environment with
        | none => .error (.attribute "environment")
        | some env =>
          match ctx.scope with
          | none => .error (.attribute "scope")
          | some scope =>
            let n := cm.name
            .ok (ctx.log_dir.child s!"{n}-{env}-{scope} + .log")

/-- The module name `__name__.split('.')[-1]` used for the instance logger. -/
def logModule : String := "context"

/-- `AppContext.setup_logging`, translated from the source: read the required
`logging` section of the active config, resolve the level name, compute the log
file (creating its directory), set the root logger's level, append a
`RotatingFileHandler`, append a console handler when `use_console` is set,
enable warning capture, and store the instance logger in `self.log`.  Handlers
are appended to whatever the root logger already holds, exactly as
`logger.addHandler` does. -/
def AppContext.setup_logging (ctx : AppContext) (root : RootLogger) :
    Except Err (AppContext × RootLogger) :=
  match ctx.config with
  | none => .error (.attribute "config")
  | some cfg =>
    match cfg.logging with
    | none => .error (.keyError "logging")
    | some lc =>
      match logLevelValue (pyUpper lc.level) with
      | none => .error (.attribute (pyUpper lc.level))
      | some level =>
        match ctx.log_file with
        | .error e => .error e
        | .ok lf =>
          let dfmt := lc.datefmt.getD ""
          let root1 : RootLogger := { root with level := level }
          let rfh : Handler :=
            .rotatingFile lf level lc.format dfmt (1024 * lc.max_size) lc.backup_count
          let root2 : RootLogger := { root1 with handlers := root1.handlers ++ [rfh] }
          let root3 : RootLogger :=
            if lc.use_console then
              { root2 with handlers := root2.handlers ++ [.colorStream level lc.format dfmt] }
            else root2
          let root4 : RootLogger := { root3 with captureWarnings := true }
          .ok ({ ctx with log := some logModule }, root4)

/-- `docker_temporary_volume_name(run_id)`: reads `self.name` and `self.scope`. -/
def AppContext.docker_temporary_volume_name (ctx : AppContext) (run_id : Nat) :
    Except Err String :=
  match ctx.name with
  | none => .error (.attribute "name")
  | some n =>
    match ctx.scope with
    | none => .error (.attribute "scope")
    | some s => .ok s!"{APPNAME}-{n}-{s}-{run_id}-tmpvol"

/-- The `docker_container_name` property. -/
def AppContext.docker_container_name (ctx : AppContext) : Except Err String :=
  match ctx.name with
  | none => .error (.attribute "name")
  | some n =>
    match ctx.scope with
    | none => .error (.attribute "scope")
    | some s => .ok s!"{APPNAME}-{n}-{s}"

/-- The `docker_network_name` property (same string as the container name). -/
def AppContext.docker_network_name (ctx : AppContext) : Except Err String :=
  match ctx.name with
  | none => .error (.attribute "name")
  | some n =>
    match ctx.scope with
    | none => .error (.attribute "scope")
    | some s => .ok s!"{APPNAME}-{n}-{s}"

/-- The `config_file_name` property: the stem of the stored config file. -/
def AppContext.config_file_name (ctx : AppContext) : Except Err String :=
  match ctx.config_file with
  | none => .error (.attribute "config_file")
  | some p => .ok p.stem

/-- The `config_file` setter: assert the path exists, store it, and eagerly load
the configuration manager from it (a load exception propagates). -/
def AppContext.set_config_file (w : World) (ctx : AppContext) (path : FsPath) :
    Except Err AppContext :=
  if w.fileExists path then
    match w.from_file path with
    | .error msg => .error (.raised msg)
    | .ok cm => .ok { ctx with config_file := some path, config_manager := some cm }
  else
    let ps := path.render
    .error (.assertion s!"config {ps} not found")

/-- The `environment` setter: assert a config manager is loaded and the name is
available, store the name, derive `config = config_manager.get(env)`, and when
logging is process-enabled run `setup_logging` before returning. -/
def AppContext.set_environment (logging_enabled : Bool) (ctx : AppContext)
    (root : RootLogger) (env : String) : Except Err (AppContext × RootLogger) :=
  match ctx.config_manager with
  | none => .error (.assertion "Environment set before ConfigurationManager is initialized...")
  | some cm =>
    if env ∈ cm.available_environments then
      let ctx1 := { ctx with environment := some env, config := cm.get env }
      if logging_enabled then AppContext.setup_logging ctx1 root
      else .ok (ctx1, root)
    else
      .error (.assertion s!"Requested environment {env} is not found in the configuration")

/-- `AppContext.__init__`: set `name` and `scope`, resolve the folders, assign
`config_file = config_dir / (instance_name + ".yaml")` (which loads the
manager), assign `environment` (which activates it and, when enabled, sets up
logging), and finally reset `self.log` to `None`. -/
def AppContext.init (w : World) (d : AppDirs) (logging_enabled : Bool)
    (root : RootLogger) (instance_type instance_name : String)
    (system_folders : Bool) (environment : String) :
    Except Err (AppContext × RootLogger) := do
  let ctx : AppContext :=
    { name := some instance_name
      scope := some (if system_folders then "system" else "user") }
  let ctx := AppContext.set_folders d ctx instance_type instance_name system_folders
  let ctx ← AppContext.set_config_file w ctx (ctx.config_dir.child (instance_name ++ ".yaml"))
  let (ctx, root) ← AppContext.set_environment logging_enabled ctx root environment
  pure ({ ctx with log := none }, root)

/-- `AppContext.from_external_config_file`: start from a blank object
(`cls.__new__`), resolve folders for the name derived from the file's stem,
override `config_dir` with the file's parent, assign `config_file`, and assign
`environment`.  `name` and `scope` are never assigned. -/
def AppContext.from_external_config_file (w : World) (d : AppDirs)
    (logging_enabled : Bool) (root : RootLogger) (path : FsPath)
    (instance_type : String) (environment : String) (system_folders : Bool) :
    Except Err (AppContext × RootLogger) := do
  let instance_name := path.stem
  let ctx : AppContext := {}
  let ctx := AppContext.set_folders d ctx instance_type instance_name system_folders
  let ctx := { ctx with config_dir := path.parent }
  let ctx ← AppContext.set_config_file w ctx path
  AppContext.set_environment logging_enabled ctx root environment

/-- `AppContext.config_exists`: resolve the config file path from the OS
convention, return `False` when it is absent, otherwise load it and test the
requested environment.  The final membership test stands for the source's
`bool(getattr(config_manager, environment))` — modelled from the spec: "loads
it and checks the environment name is present" (the manager's attribute layout
is not under `src/`).  A load exception propagates. -/
def AppContext.config_exists (w : World) (d : AppDirs)
    (instance_type instance_name : String) (environment : String)
    (system_folders : Bool) : Except Err Bool :=
  let config_dir := if system_folders then d.site_config_dir else d.user_config_dir
  let config_file := (config_dir.child instance_type).child (instance_name ++ ".yaml")
  if w.fileExists config_file then
    match w.from_file config_file with
    | .error msg => .error (.raised msg)
    | .ok cm => .ok (decide (environment ∈ cm.available_environments))
  else
    .ok false

/-- Whether `available_configurations` puts a candidate file on the failed list:
loading raised, or the loaded manager is empty. -/
def loadFails (w : World) (f : FsPath) : Bool :=
  match w.from_file f with
  | .error _ => true
  | .ok cm => cm.is_empty

/-- The manager `available_configurations` keeps for a candidate file, when it
loads and is non-empty. -/
def loadOk (w : World) (f : FsPath) : Option ConfigurationManager :=
  match w.from_file f with
  | .error _ => none
  | .ok cm => if cm.is_empty then none else some cm

/-- One iteration of the `available_configurations` loop: try to load the file;
an empty manager or a raised exception sends the file to the failed list,
otherwise the manager joins the success list. -/
def availStep (w : World) (acc : List ConfigurationManager × List FsPath)
    (file_ : FsPath) : List ConfigurationManager × List FsPath :=
  match w.from_file file_ with
  | .error _ => (acc.1, acc.2 ++ [file_])
  | .ok cm =>
    if cm.is_empty then (acc.1, acc.2 ++ [file_])
    else (acc.1 ++ [cm], acc.2)

/-- `AppContext.available_configurations`: glob `*.yaml` in the resolved config
directory and fold every candidate through `availStep`; every per-file error is
absorbed, so the function is total. -/
def AppContext.available_configurations (w : World) (d : AppDirs)
    (instance_type : String) (system_folders : Bool) :
    List ConfigurationManager × List FsPath :=
  let folders := AppContext.instance_folders d instance_type "" system_folders
  let config_files := w.globYaml folders.config
  config_files.foldl (availStep w) ([], [])

/-! ## Helper lemmas -/

/-- When `setup_logging` succeeds, the only attribute it changes on the context
is `log`. -/
theorem setup_logging_ok_ctx (ctx : AppContext) (root : RootLogger)
    (ctx' : AppContext) (root' : RootLogger)
    (h : AppContext.setup_logging ctx root = .ok (ctx', root')) :
    ctx' = { ctx with log := some logModule } := by
  unfold AppContext.setup_logging at h
  repeat' split at h
  all_goals simp_all

/-- Anatomy of a successful `environment` assignment: the config manager was
loaded, the name was available, the name and derived config are stored, and no
other attribute than `log` changes. -/
theorem set_environment_ok (logging_enabled : Bool) (ctx : AppContext)
    (root : RootLogger) (env : String) (ctx' : AppContext) (root' : RootLogger)
    (h : AppContext.set_environment logging_enabled ctx root env = .ok (ctx', root')) :
    ∃ cm, ctx.config_manager = some cm ∧ env ∈ cm.available_environments ∧
      ctx' = { ctx with environment := some env, config := cm.get env, log := ctx'.log } := by
  unfold AppContext.set_environment at h
  split at h
  · simp_all
  next cm hcm =>
    refine ⟨cm, hcm, ?_⟩
    split at h
    next hmem =>
      refine ⟨hmem, ?_⟩
      split at h
      · have := setup_logging_ok_ctx _ _ _ _ h
        subst this
        rfl
      · simp only [Except.ok.injEq, Prod.mk.injEq] at h
        rw [← h.1]
    next hmem => simp_all

/-- Anatomy of a successful `config_file` assignment: the file existed, the
manager loaded, and exactly the two attributes are stored. -/
theorem set_config_file_ok (w : World) (ctx : AppContext) (path : FsPath)
    (ctx' : AppContext) (h : AppContext.set_config_file w ctx path = .ok ctx') :
    w.fileExists path = true ∧ ∃ cm, w.from_file path = .ok cm ∧
      ctx' = { ctx with config_file := some path, config_manager := some cm } := by
  unfold AppContext.set_config_file at h
  split at h
  next hex =>
    refine ⟨hex, ?_⟩
    split at h
    · simp_all
    next cm hcm => exact ⟨cm, hcm, by simp_all⟩
  · simp_all

/-- The `available_configurations` loop, as a function of the candidate list:
the fold appends the managers of the cleanly loading files to the success
accumulator and the failing files to the failed accumulator, in order. -/
theorem avail_foldl (w : World) (files : List FsPath)
    (acc : List ConfigurationManager × List FsPath) :
    files.foldl (availStep w) acc =
      (acc.1 ++ files.filterMap (loadOk w), acc.2 ++ files.filter (loadFails w)) := by
  induction files generalizing acc with
  | nil => simp
  | cons f fs ih =>
    simp only [List.foldl_cons, ih, List.filterMap_cons, List.filter_cons]
    unfold availStep loadOk loadFails
    rcases hf : w.from_file f with msg | cm
    · simp [hf]
    · rcases he : cm.is_empty with _ | _ <;> simp [hf, he]

/-- A candidate file yields no manager exactly when it is a failure. -/
theorem loadOk_none_iff (w : World) (f : FsPath) :
    loadOk w f = none ↔ loadFails w f = true := by
  unfold loadOk loadFails
  rcases w.from_file f with msg | cm
  · simp
  · rcases he : cm.is_empty with _ | _ <;> simp [he]

/-- Every candidate file lands in exactly one of the two lists: the number of
kept managers plus the number of failed files is the number of candidates. -/
theorem avail_count (w : World) (files : List FsPath) :
    (files.filterMap (loadOk w)).length + (files.filter (loadFails w)).length
      = files.length := by
  induction files with
  | nil => rfl
  | cons f fs ih =>
    simp only [List.filterMap_cons, List.filter_cons, List.length_cons]
    rcases hfail : loadFails w f with _ | _
    · have hok : loadOk w f ≠ none := by
        intro h
        rw [loadOk_none_iff] at h
        simp [h] at hfail
      rcases hs : loadOk w f with _ | cm
      · exact absurd hs hok
      · simp only [hfail, Bool.false_eq_true, if_false, List.length_cons]
        omega
    · have hok : loadOk w f = none := (loadOk_none_iff w f).2 hfail
      simp only [hok, hfail, if_true, List.length_cons]
      omega

/-! ## Claims -/

/-- C1: for every context with a loaded config manager and every environment
name in `available_environments`, assigning `environment` stores the name and
sets `config` to `config_manager.get(name)` — fully replacing any previous
`config`, whatever it was — and, when the process-wide logging flag is enabled,
the assignment runs the full logging setup on the updated context before it
returns. -/
theorem c1_environment_assignment (logging_enabled : Bool) (ctx : AppContext)
    (root : RootLogger) (env : String) (cm : ConfigurationManager)
    (hcm : ctx.config_manager = some cm) (henv : env ∈ cm.available_environments) :
    (∀ ctx' root',
        AppContext.set_environment logging_enabled ctx root env = .ok (ctx', root') →
        ctx'.environment = some env ∧ ctx'.config = cm.get env) ∧
    (logging_enabled = true →
      AppContext.set_environment logging_enabled ctx root env =
        AppContext.setup_logging
          { ctx with environment := some env, config := cm.get env } root) := by
  constructor
  · intro ctx' root' h
    obtain ⟨cm2, hcm2, hmem2, hctx⟩ := set_environment_ok _ _ _ _ _ _ h
    rw [hcm] at hcm2
    obtain rfl : cm = cm2 := by injection hcm2
    rw [hctx]
    exact ⟨rfl, rfl⟩
  · intro hle
    subst hle
    unfold AppContext.set_environment
    rw [hcm]
    simp [henv]

/-- C2: assigning `environment` fails with the precondition assertion when no
config manager is loaded, and with a not-found assertion naming the requested
environment when the name is not among `available_environments`; both failures
abort the assignment (no updated state is produced). -/
theorem c2_environment_assignment_failures (logging_enabled : Bool)
    (ctx : AppContext) (root : RootLogger) (env : String) :
    (ctx.config_manager = none →
      AppContext.set_environment logging_enabled ctx root env =
        .error (.assertion "Environment set before ConfigurationManager is initialized...")) ∧
    (∀ cm, ctx.config_manager = some cm → env ∉ cm.available_environments →
      AppContext.set_environment logging_enabled ctx root env =
        .error (.assertion ("Requested environment " ++ env ++ " is not found in the configuration"))) := by
  constructor
  · intro h
    unfold AppContext.set_environment
    rw [h]
  · intro cm hcm hmem
    unfold AppContext.set_environment
    rw [hcm]
    simp only [hmem, if_false, ite_false]
    rfl

/-- C3: assigning `config_file` fails with a not-found assertion when no file
exists at the path; on success it stores the path and eagerly loads the config
manager from it; and consequently constructing an `AppContext` whose resolved
config file is absent aborts with that assertion. -/
theorem c3_config_file_assignment (w : World) (d : AppDirs)
    (logging_enabled : Bool) (root : RootLogger) (ctx : AppContext) (path : FsPath)
    (instance_type instance_name environment : String) (system_folders : Bool) :
    (w.fileExists path = false →
      AppContext.set_config_file w ctx path =
        .error (.assertion ("config " ++ path.render ++ " not found"))) ∧
    (∀ cm, w.fileExists path = true → w.from_file path = .ok cm →
      AppContext.set_config_file w ctx path =
        .ok { ctx with config_file := some path, config_manager := some cm }) ∧
    (w.fileExists ((AppContext.instance_folders d instance_type instance_name
        system_folders).config.child (instance_name ++ ".yaml")) = false →
      AppContext.init w d logging_enabled root instance_type instance_name
          system_folders environment =
        .error (.assertion ("config " ++ ((AppContext.instance_folders d instance_type
          instance_name system_folders).config.child (instance_name ++ ".yaml")).render ++
          " not found"))) := by
  refine ⟨?_, ?_, ?_⟩
  · intro h
    unfold AppContext.set_config_file
    simp only [h, Bool.false_eq_true, if_false, ite_false]
    rfl
  · intro cm hex hcm
    unfold AppContext.set_config_file
    simp [hex, hcm]
  · intro h
    unfold AppContext.init AppContext.set_folders AppContext.set_config_file
    simp only [h, Except.bind, bind, Bool.false_eq_true, if_false, ite_false]
    rfl

/-- C6: `config_exists` returns `False` when the resolved config file is
absent, and when the file is present and loads it returns exactly whether the
requested environment name is present among the loaded document's environments
(the presence check stands for the source's `bool(getattr(...))`, modelled from
the spec). -/
theorem c6_config_exists (w : World) (d : AppDirs)
    (instance_type instance_name environment : String) (system_folders : Bool) :
    (w.fileExists (((if system_folders then d.site_config_dir else d.user_config_dir).child
        instance_type).child (instance_name ++ ".yaml")) = false →
      AppContext.config_exists w d instance_type instance_name environment
        system_folders = .ok false) ∧
    (∀ cm,
      w.fileExists (((if system_folders then d.site_config_dir else d.user_config_dir).child
        instance_type).child (instance_name ++ ".yaml")) = true →
      w.from_file (((if system_folders then d.site_config_dir else d.user_config_dir).child
        instance_type).child (instance_name ++ ".yaml")) = .ok cm →
      AppContext.config_exists w d instance_type instance_name environment
        system_folders = .ok (decide (environment ∈ cm.available_environments))) := by
  constructor
  · intro h
    unfold AppContext.config_exists
    simp [h]
  · intro cm hex hcm
    unfold AppContext.config_exists
    simp [hex, hcm]

/-- C7: `available_configurations` is total (every per-file error is absorbed),
its failed list is exactly the candidate `*.yaml` files whose load raises or
yields an empty manager, its success list is exactly the managers of the other
candidates, and the two lists together cover every candidate file exactly
once. -/
theorem c7_available_configurations (w : World) (d : AppDirs)
    (instance_type : String) (system_folders : Bool) :
    (AppContext.available_configurations w d instance_type system_folders).1 =
      (w.globYaml (AppContext.instance_folders d instance_type "" system_folders).config).filterMap
        (loadOk w) ∧
    (AppContext.available_configurations w d instance_type system_folders).2 =
      (w.globYaml (AppContext.instance_folders d instance_type "" system_folders).config).filter
        (loadFails w) ∧
    (AppContext.available_configurations w d instance_type system_folders).1.length +
      (AppContext.available_configurations w d instance_type system_folders).2.length =
      (w.globYaml (AppContext.instance_folders d instance_type "" system_folders).config).length := by
  have hmain : AppContext.available_configurations w d instance_type system_folders =
      ((w.globYaml (AppContext.instance_folders d instance_type "" system_folders).config).filterMap
        (loadOk w),
       (w.globYaml (AppContext.instance_folders d instance_type "" system_folders).config).filter
        (loadFails w)) := by
    unfold AppContext.available_configurations
    simpa using avail_foldl w
      (w.globYaml (AppContext.instance_folders d instance_type "" system_folders).config) ([], [])
  refine ⟨by rw [hmain], by rw [hmain], ?_⟩
  rw [hmain]
  exact avail_count w _

/-- C8: `instance_folders` is a pure function of its inputs and the OS
directory convention, returning exactly the three documented paths in the
system-folders case and in the user-folders case. -/
theorem c8_instance_folders (d : AppDirs) (instance_type instance_name : String) :
    AppContext.instance_folders d instance_type instance_name true =
      { log := d.site_data_dir ++ [instance_type]
        data := d.site_data_dir ++ [instance_type, instance_name]
        config := d.site_config_dir ++ [instance_type] } ∧
    AppContext.instance_folders d instance_type instance_name false =
      { log := d.user_log_dir ++ [instance_type]
        data := d.user_data_dir ++ [instance_type, instance_name]
        config := d.user_config_dir ++ [instance_type] } :=
  ⟨rfl, rfl⟩

/-- C9: on every context whose `name` and `scope` are set (as every context
built by `__init__` has), `docker_container_name` and `docker_network_name` are
equal, both are the string `"{APPNAME}-{name}-{scope}"`, and
`docker_temporary_volume_name(run_id)` is
`"{APPNAME}-{name}-{scope}-{run_id}-tmpvol"` for every `run_id` (hence
`"...-42-tmpvol"` at `run_id = 42`). -/
theorem c9_docker_names (ctx : AppContext) (n s : String)
    (hn : ctx.name = some n) (hs : ctx.scope = some s) :
    ctx.docker_container_name = ctx.docker_network_name ∧
    ctx.docker_container_name = .ok s!"{APPNAME}-{n}-{s}" ∧
    ∀ run_id : Nat, ctx.docker_temporary_volume_name run_id =
      .ok s!"{APPNAME}-{n}-{s}-{run_id}-tmpvol" := by
  unfold AppContext.docker_container_name AppContext.docker_network_name
    AppContext.docker_temporary_volume_name
  rw [hn, hs]
  exact ⟨rfl, rfl, fun run_id => rfl⟩

/-- C10: a context built by `from_external_config_file` never has `name` or
`scope` assigned, so on any such successfully built context the three docker
naming helpers fail with an `AttributeError` on `name`; and when logging is
enabled and the active environment's logging section has no (truthy) `file`
override, the construction itself fails with the `AttributeError` raised on
`scope` while the default log-file name is computed. -/
theorem c10_from_external_config_file (w : World) (d : AppDirs)
    (logging_enabled : Bool) (root : RootLogger) (path : FsPath)
    (instance_type environment : String) (system_folders : Bool) :
    (∀ ctx' root',
      AppContext.from_external_config_file w d logging_enabled root path
          instance_type environment system_folders = .ok (ctx', root') →
      ctx'.name = none ∧ ctx'.scope = none ∧
      ctx'.docker_container_name = .error (.attribute "name") ∧
      ctx'.docker_network_name = .error (.attribute "name") ∧
      ∀ run_id : Nat,
        ctx'.docker_temporary_volume_name run_id = .error (.attribute "name")) ∧
    (∀ cm c lc,
      w.fileExists path = true → w.from_file path = .ok cm →
      environment ∈ cm.available_environments → cm.get environment = some c →
      c.logging = some lc → (logLevelValue (pyUpper lc.level)).isSome →
      c.loggingFileOverride = none →
      AppContext.from_external_config_file w d true root path instance_type
          environment system_folders = .error (.attribute "scope")) := by
  constructor
  · intro ctx' root' h
    unfold AppContext.from_external_config_file at h
    simp only [bind, Except.bind] at h
    split at h
    · simp_all
    next ctx1 hcf =>
      obtain ⟨hex, cm, hfrom, hctx1⟩ := set_config_file_ok _ _ _ _ hcf
      obtain ⟨cm2, hcm2, hmem, hctx'⟩ := set_environment_ok _ _ _ _ _ _ h
      subst hctx1
      have hname : ctx'.name = none := by
        rw [hctx']
        rfl
      have hscope : ctx'.scope = none := by
        rw [hctx']
        rfl
      refine ⟨hname, hscope, ?_, ?_, ?_⟩
      · unfold AppContext.docker_container_name
        rw [hname]
      · unfold AppContext.docker_network_name
        rw [hname]
      · intro run_id
        unfold AppContext.docker_temporary_volume_name
        rw [hname]
  · intro cm c lc hex hfrom hmem hget hlog hlv hov
    obtain ⟨level, hlevel⟩ := Option.isSome_iff_exists.1 hlv
    unfold AppContext.from_external_config_file AppContext.set_config_file
    simp only [bind, Except.bind, hex, if_true, hfrom]
    unfold AppContext.set_environment
    simp only [hmem, if_true, ite_true, hget]
    unfold AppContext.setup_logging
    simp only [hget, hlog, hlevel]
    unfold AppContext.log_file
    simp only [hov]
    rfl

/-! ## Concrete fixtures for evaluation theorems and witnesses -/

/-- A logging section with a `file` override and no console handler. -/
def lcFileA : LoggingConfig :=
  { level := "INFO", format := "%(message)s", datefmt := none, max_size := 10
    backup_count := 5, use_console := false, file := some "app.log" }

/-- A logging section without a `file` key. -/
def lcNoFile : LoggingConfig :=
  { level := "INFO", format := "%(message)s", datefmt := none, max_size := 10
    backup_count := 5, use_console := false, file := none }

/-- Settings of the `application` environment of the fixture document. -/
def cfgA : Config := { logging := some lcFileA, other := [("key", "a")] }

/-- Settings of the `test` environment of the fixture document. -/
def cfgB : Config := { logging := some lcFileA, other := [("key", "b")] }

/-- Settings whose logging section has no `file` key. -/
def cfgNoFile : Config := { logging := some lcNoFile, other := [] }

/-- A fixture document with two environments. -/
def cmA : ConfigurationManager :=
  { name := "alice", environments := [("application", cfgA), ("test", cfgB)] }

/-- A fixture document whose only environment has no log-file override. -/
def cmNoFile : ConfigurationManager :=
  { name := "iknl", environments := [("application", cfgNoFile)] }

/-- An OS directory convention with distinct user and site roots. -/
def dirsA : AppDirs :=
  { user_log_dir := ["ulog"], user_data_dir := ["udata"], user_config_dir := ["ucfg"]
    site_data_dir := ["sdata"], site_config_dir := ["scfg"] }

/-- A world holding exactly the fixture file `ucfg/node/alice.yaml`. -/
def wA : World :=
  { fileExists := fun p => decide (p = ["ucfg", "node", "alice.yaml"])
    from_file := fun p =>
      if p = ["ucfg", "node", "alice.yaml"] then .ok cmA else .error "parse"
    globYaml := fun _ => [] }

/-- A world holding exactly the external fixture file `cfg/ext.yaml`, whose
only environment has no log-file override. -/
def wExt : World :=
  { fileExists := fun p => decide (p = ["cfg", "ext.yaml"])
    from_file := fun p =>
      if p = ["cfg", "ext.yaml"] then .ok cmNoFile else .error "parse"
    globYaml := fun _ => [] }

/-- A fully constructed context over the fixture document, before any
environment activation. -/
def ctxA : AppContext :=
  { name := some "alice", scope := some "user", log_dir := ["logs"]
    data_dir := ["data"], config_dir := ["ucfg", "node"]
    config_file := some ["ucfg", "node", "alice.yaml"], config_manager := some cmA
    environment := none, config := none, log := none }

/-- A constructed context whose active environment has no log-file override. -/
def ctxNoFile : AppContext :=
  { name := some "iknl", scope := some "user", log_dir := ["logs"]
    data_dir := ["data"], config_dir := ["ucfg", "node"]
    config_file := some ["ucfg", "node", "iknl.yaml"], config_manager := some cmNoFile
    environment := some "application", config := some cfgNoFile, log := none }

/-- The context produced by a successful `from_external_config_file` over
`wExt` with logging disabled. -/
def ctxExtOk : AppContext :=
  { name := none, scope := none, log_dir := ["ulog", "node"]
    data_dir := ["udata", "node", "ext"], config_dir := ["cfg"]
    config_file := some ["cfg", "ext.yaml"], config_manager := some cmNoFile
    environment := some "application", config := some cfgNoFile, log := none }

/-- C4: evaluating `log_file` on a context whose active logging section has no
`file` key shows the code's actual default name: the stray literal
`" + .log"` suffix of the source's f-string, not the `".log"` the spec
intends — the resolved name is `"iknl-application-user + .log"`, not
`"iknl-application-user.log"`. -/
theorem c4_default_log_file_artifact :
    ctxNoFile.log_file = .ok ["logs", "iknl-application-user + .log"] ∧
    ctxNoFile.log_file ≠ .ok ["logs", "iknl-application-user.log"] := by
  refine ⟨rfl, fun h => ?_⟩
  rw [show ctxNoFile.log_file = .ok ["logs", "iknl-application-user + .log"] from rfl] at h
  simp at h

/-- C5: evaluating two successive environment activations (logging enabled)
over the fixture shows the root logger accumulating handlers: one rotating
file handler after the first activation, two after the second — `addHandler`
stacks, it does not replace. -/
theorem c5_handler_accumulation :
    (AppContext.set_environment true ctxA {} "application").map
      (fun p => p.2.handlers.length) = .ok 1 ∧
    ((AppContext.set_environment true ctxA {} "application").bind
      (fun p => AppContext.set_environment true p.1 p.2 "application")).map
      (fun p => p.2.handlers.length) = .ok 2 :=
  ⟨rfl, rfl⟩

/-! ## Witnesses -/

/-- The context after activating `test` on the fixture with logging enabled. -/
def ctx1A : AppContext :=
  { ctxA with environment := some "test", config := some cfgB, log := some logModule }

/-- The root logger after that activation. -/
def root1A : RootLogger :=
  { level := 20
    handlers := [.rotatingFile ["logs", "app.log"] 20 "%(message)s" "" 10240 5]
    captureWarnings := true }

/-- Witness for C1 at the fixture: activating `test` on `ctxA`. -/
theorem c1_environment_assignment_witness :
    ("test" ∈ cmA.available_environments) ∧
    (ctx1A.environment = some "test" ∧ ctx1A.config = cmA.get "test") ∧
    AppContext.set_environment true ctxA {} "test" =
      AppContext.setup_logging
        { ctxA with environment := some "test", config := cmA.get "test" } {} := by
  have h := c1_environment_assignment true ctxA {} "test" cmA rfl (by decide)
  exact ⟨by decide, h.1 ctx1A root1A rfl, h.2 rfl⟩

/-- Witness for C2: a blank context (no manager) and a missing environment. -/
theorem c2_environment_assignment_failures_witness :
    AppContext.set_environment true {} {} "prod" =
      .error (.assertion "Environment set before ConfigurationManager is initialized...") ∧
    AppContext.set_environment true ctxA {} "prod" =
      .error (.assertion "Requested environment prod is not found in the configuration") := by
  refine ⟨(c2_environment_assignment_failures true {} {} "prod").1 rfl, ?_⟩
  exact (c2_environment_assignment_failures true ctxA {} "prod").2 cmA rfl (by decide)

/-- Witness for C3: a missing file, the fixture file, and a construction over
an absent config file. -/
theorem c3_config_file_assignment_witness :
    AppContext.set_config_file wA ctxA ["nope.yaml"] =
      .error (.assertion "config nope.yaml not found") ∧
    AppContext.set_config_file wA {} ["ucfg", "node", "alice.yaml"] =
      .ok { ({} : AppContext) with
              config_file := some ["ucfg", "node", "alice.yaml"]
              config_manager := some cmA } ∧
    AppContext.init wA dirsA true {} "node" "bob" false "application" =
      .error (.assertion "config ucfg/node/bob.yaml not found") := by
  refine ⟨?_, ?_, ?_⟩
  · exact (c3_config_file_assignment wA dirsA true {} ctxA ["nope.yaml"]
      "node" "bob" "application" false).1 rfl
  · exact (c3_config_file_assignment wA dirsA true {} {} ["ucfg", "node", "alice.yaml"]
      "node" "bob" "application" false).2.1 cmA rfl rfl
  · exact (c3_config_file_assignment wA dirsA true {} {} ["x"]
      "node" "bob" "application" false).2.2 rfl

/-- Witness for C6: an absent file, a present environment, and an absent
environment over the fixture world. -/
theorem c6_config_exists_witness :
    AppContext.config_exists wA dirsA "node" "bob" "application" false = .ok false ∧
    AppContext.config_exists wA dirsA "node" "alice" "application" false = .ok true ∧
    AppContext.config_exists wA dirsA "node" "alice" "prod" false = .ok false := by
  refine ⟨(c6_config_exists wA dirsA "node" "bob" "application" false).1 rfl, ?_, ?_⟩
  · exact ((c6_config_exists wA dirsA "node" "alice" "application" false).2 cmA rfl rfl).trans rfl
  · exact ((c6_config_exists wA dirsA "node" "alice" "prod" false).2 cmA rfl rfl).trans rfl

/-- Witness for C9 at the fixture context, including `run_id = 42`. -/
theorem c9_docker_names_witness :
    ctxA.docker_container_name = ctxA.docker_network_name ∧
    ctxA.docker_container_name = .ok "vantage6-alice-user" ∧
    ctxA.docker_temporary_volume_name 42 = .ok "vantage6-alice-user-42-tmpvol" := by
  have h := c9_docker_names ctxA "alice" "user" rfl rfl
  exact ⟨h.1, h.2.1.trans rfl, (h.2.2 42).trans rfl⟩

/-- Witness for C10: the external fixture, built once with logging disabled
(nameless, scopeless context whose docker helpers fail) and once with logging
enabled (construction fails reading `scope`). -/
theorem c10_from_external_config_file_witness :
    (ctxExtOk.name = none ∧ ctxExtOk.scope = none ∧
      ctxExtOk.docker_container_name = .error (.attribute "name") ∧
      ctxExtOk.docker_network_name = .error (.attribute "name") ∧
      ctxExtOk.docker_temporary_volume_name 7 = .error (.attribute "name")) ∧
    AppContext.from_external_config_file wExt dirsA true {} ["cfg", "ext.yaml"]
      "node" "application" false = .error (.attribute "scope") := by
  have h1 := (c10_from_external_config_file wExt dirsA false {} ["cfg", "ext.yaml"]
    "node" "application" false).1 ctxExtOk {} rfl
  have h2 := (c10_from_external_config_file wExt dirsA true {} ["cfg", "ext.yaml"]
    "node" "application" false).2 cmNoFile cfgNoFile lcNoFile rfl rfl (by decide)
    rfl rfl rfl rfl
  exact ⟨⟨h1.1, h1.2.1, h1.2.2.1, h1.2.2.2.1, h1.2.2.2.2 7⟩, h2⟩
